import Mathlib

/-!
Shallow embedding of the social-cli client (src/src/main.rs).

Machine bytes are modelled as `Nat` values below 256, byte strings as
`List Nat`, and Solana public keys as a 32-byte wrapper `Pubkey`.  The
Borsh serialization of the `SocialInstruction` enum is embedded byte for
byte (1-byte variant discriminant; strings as 4-byte little-endian length
prefix plus UTF-8 bytes; pubkeys as 32 raw bytes).  Program-derived
addresses (`Pubkey::find_program_address`) live in the solana-sdk, outside
this repository; the embedding keeps its structure (a bump search from 255
downward that accepts the first candidate not on the signing curve) and
abstracts the hash function and the on-curve test as parameters, since the
client code depends only on the derivation being a pure function of the
ordered seed list and the program id.  The RPC collaborator is abstracted
by passing the fetched blockhash as an argument; submission is modelled by
returning the assembled transaction.
-/

namespace Social

/-- Solana public key: 32 raw bytes (`solana_program::pubkey::Pubkey`). -/
structure Pubkey where
  bytes : List Nat
deriving DecidableEq, Repr

/-- Account metadata triple, as in `solana_program::instruction::AccountMeta`:
address, signer flag, writable flag. -/
structure AccountMeta where
  pubkey : Pubkey
  is_signer : Bool
  is_writable : Bool
deriving DecidableEq, Repr

/-- Writable account constructor `AccountMeta::new(pubkey, is_signer)`. -/
def AccountMeta.new (pubkey : Pubkey) (is_signer : Bool) : AccountMeta :=
  { pubkey := pubkey, is_signer := is_signer, is_writable := true }

/-- Read-only account constructor `AccountMeta::new_readonly(pubkey, is_signer)`. -/
def AccountMeta.new_readonly (pubkey : Pubkey) (is_signer : Bool) : AccountMeta :=
  { pubkey := pubkey, is_signer := is_signer, is_writable := false }

/-- The instruction enum of main.rs lines 11-19.  The Rust `String` payloads
are modelled as their UTF-8 byte lists. -/
inductive SocialInstruction where
  | Init : List Nat → SocialInstruction
  | Follow : Pubkey → SocialInstruction
  | Unfollow : Pubkey → SocialInstruction
  | QueryFollows : SocialInstruction
  | Post : List Nat → SocialInstruction
  | QueryPosts : SocialInstruction
deriving DecidableEq, Repr

/-- Little-endian 4-byte encoding of a u32 value (Borsh length prefix). -/
def u32le (n : Nat) : List Nat :=
  [n % 256, n / 256 % 256, n / 65536 % 256, n / 16777216 % 256]

/-- Borsh serialization of `SocialInstruction` (derived `BorshSerialize`):
one u8 discriminant in declaration order, then the fields; a `String` as a
u32 little-endian length prefix followed by its bytes, a `Pubkey` as its 32
raw bytes. -/
def encode : SocialInstruction → List Nat
  | .Init s => 0 :: (u32le s.length ++ s)
  | .Follow t => 1 :: t.bytes
  | .Unfollow t => 2 :: t.bytes
  | .QueryFollows => [3]
  | .Post s => 4 :: (u32le s.length ++ s)
  | .QueryPosts => [5]

/-- Borsh decode errors: an undefined discriminant, or a payload whose shape
does not match the variant read (truncated, short, or trailing bytes). -/
inductive DecodeError where
  | unrecognizedOperation : DecodeError
  | malformedPayload : DecodeError
deriving DecidableEq, Repr

/-- Read a little-endian u32 from the front of a byte list. -/
def readU32 : List Nat → Option (Nat × List Nat)
  | a :: b :: c :: d :: rest => some (a + 256 * b + 65536 * c + 16777216 * d, rest)
  | _ => none

/-- Borsh deserialization of `SocialInstruction` (derived `BorshDeserialize`
run through `try_from_slice`, which also demands that the whole buffer is
consumed): dispatch on the u8 discriminant, read the variant fields, fail on
an undefined discriminant or a malformed payload. -/
def decode (bytes : List Nat) : Except DecodeError SocialInstruction :=
  match bytes with
  | [] => .error .malformedPayload
  | d :: rest =>
    if d = 0 then
      match readU32 rest with
      | some (n, r) => if r.length = n then .ok (.Init r) else .error .malformedPayload
      | none => .error .malformedPayload
    else if d = 1 then
      if rest.length = 32 then .ok (.Follow ⟨rest⟩) else .error .malformedPayload
    else if d = 2 then
      if rest.length = 32 then .ok (.Unfollow ⟨rest⟩) else .error .malformedPayload
    else if d = 3 then
      if rest = [] then .ok .QueryFollows else .error .malformedPayload
    else if d = 4 then
      match readU32 rest with
      | some (n, r) => if r.length = n then .ok (.Post r) else .error .malformedPayload
      | none => .error .malformedPayload
    else if d = 5 then
      if rest = [] then .ok .QueryPosts else .error .malformedPayload
    else .error .unrecognizedOperation

/-- An operation value that a well-typed Rust caller can construct and Borsh
can serialize: every `Pubkey` holds exactly 32 bytes, and a string payload is
short enough for its u32 length prefix. -/
def constructible : SocialInstruction → Prop
  | .Init s => s.length < 4294967296
  | .Follow t => t.bytes.length = 32
  | .Unfollow t => t.bytes.length = 32
  | .QueryFollows => True
  | .Post s => s.length < 4294967296
  | .QueryPosts => True

/-- Seed literal "profile" (UTF-8 bytes), const USER_PROFILE_SEED. -/
def USER_PROFILE_SEED : List Nat := [112, 114, 111, 102, 105, 108, 101]

/-- Seed literal "post" (UTF-8 bytes), const USER_POST_SEED. -/
def USER_POST_SEED : List Nat := [112, 111, 115, 116]

/-- The system program id `solana_sdk::system_program::id()`,
base58 "11111111111111111111111111111111", i.e. 32 zero bytes. -/
def system_program_id : Pubkey := ⟨List.replicate 32 0⟩

/-- The domain-separation marker "ProgramDerivedAddress" (UTF-8 bytes) that
`find_program_address` hashes after the seeds, bump and program id. -/
def pda_marker : List Nat :=
  [80, 114, 111, 103, 114, 97, 109, 68, 101, 114, 105, 118, 101, 100,
   65, 100, 100, 114, 101, 115, 115]

/-- Bump search of `Pubkey::find_program_address`: with fuel `n + 1` it tries
bump `n`, hashing the seeds, the single-byte bump, the program id and the
domain marker, and accepts the first candidate that is not a valid curve
point; otherwise it recurses with the next smaller bump.  `hash` and
`onCurve` abstract SHA-256 and the ed25519 point test of the solana-sdk. -/
def try_find_bump (hash : List (List Nat) → Pubkey) (onCurve : Pubkey → Bool)
    (seeds : List (List Nat)) (program_id : Pubkey) : Nat → Option (Pubkey × Nat)
  | 0 => none
  | n + 1 =>
    let candidate := hash (seeds ++ [[n], program_id.bytes, pda_marker])
    if onCurve candidate then try_find_bump hash onCurve seeds program_id n
    else some (candidate, n)

/-- Model of `Pubkey::find_program_address(seeds, program_id)`: bump search
from 255 down to 0; `none` models the (practically unreachable) panic when
every bump yields an on-curve candidate. -/
def find_program_address (hash : List (List Nat) → Pubkey) (onCurve : Pubkey → Bool)
    (seeds : List (List Nat)) (program_id : Pubkey) : Option (Pubkey × Nat) :=
  try_find_bump hash onCurve seeds program_id 256

/-- Helper `get_social_pda(program_id, seed)` of main.rs lines 188-192:
derives the address and drops the bump. -/
def get_social_pda (hash : List (List Nat) → Pubkey) (onCurve : Pubkey → Bool)
    (program_id : Pubkey) (seed : List (List Nat)) : Option Pubkey :=
  (find_program_address hash onCurve seed program_id).map Prod.fst

/-- An instruction value as built by `Instruction::new_with_borsh`:
program id, ordered account list, Borsh-serialized data. -/
structure Instruction where
  program_id : Pubkey
  accounts : List AccountMeta
  data : List Nat
deriving DecidableEq, Repr

/-- Constructor `Instruction::new_with_borsh(program_id, &data, accounts)`. -/
def Instruction.new_with_borsh (program_id : Pubkey) (data : SocialInstruction)
    (accounts : List AccountMeta) : Instruction :=
  { program_id := program_id, accounts := accounts, data := encode data }

/-- Remote-side profile account shape, main.rs lines 21-25: a u16 length
field and the follower list. -/
structure UserProfile where
  data_len : Nat
  followers : List Pubkey
deriving DecidableEq, Repr

/-- Constructor `UserProfile::new()`: zero length, empty follower list. -/
def UserProfile.new : UserProfile :=
  { data_len := 0, followers := [] }

/-- Mutator `UserProfile::follow`: pushes the follower, then stores the new
list length cast to u16 (`as u16` wraps modulo 2^16). -/
def UserProfile.follow (p : UserProfile) (follower : Pubkey) : UserProfile :=
  let followers := p.followers ++ [follower]
  { data_len := followers.length % 65536, followers := followers }

/-- Builder of `SocialClient::init_user` (main.rs lines 70-86), up to the
submission step: derives the pda from the caller pubkey and the seed-type
label, and assembles the instruction.  `none` models the derivation panic. -/
def init_user (hash : List (List Nat) → Pubkey) (onCurve : Pubkey → Bool)
    (program_id user_pubkey : Pubkey) (seed_type : List Nat) : Option Instruction :=
  (get_social_pda hash onCurve program_id [user_pubkey.bytes, seed_type]).map
    fun social_pda =>
      Instruction.new_with_borsh program_id (.Init seed_type)
        [AccountMeta.new user_pubkey true,
         AccountMeta.new social_pda false,
         AccountMeta.new_readonly system_program_id false]

/-- Builder of `SocialClient::follow_user` (main.rs lines 88-102): derives the
profile pda of the caller and attaches it as the single account. -/
def follow_user (hash : List (List Nat) → Pubkey) (onCurve : Pubkey → Bool)
    (program_id user_pubkey : Pubkey) (follow_target : Pubkey) : Option Instruction :=
  (get_social_pda hash onCurve program_id [user_pubkey.bytes, USER_PROFILE_SEED]).map
    fun social_pda =>
      Instruction.new_with_borsh program_id (.Follow follow_target)
        [AccountMeta.new social_pda false]

/-- Builder of `SocialClient::query_follow` (main.rs lines 104-118). -/
def query_follow (hash : List (List Nat) → Pubkey) (onCurve : Pubkey → Bool)
    (program_id user_pubkey : Pubkey) : Option Instruction :=
  (get_social_pda hash onCurve program_id [user_pubkey.bytes, USER_PROFILE_SEED]).map
    fun social_pda =>
      Instruction.new_with_borsh program_id .QueryFollows
        [AccountMeta.new social_pda false]

/-- Builder of `SocialClient::unfollow_user` (main.rs lines 120-134). -/
def unfollow_user (hash : List (List Nat) → Pubkey) (onCurve : Pubkey → Bool)
    (program_id user_pubkey : Pubkey) (follow_target : Pubkey) : Option Instruction :=
  (get_social_pda hash onCurve program_id [user_pubkey.bytes, USER_PROFILE_SEED]).map
    fun social_pda =>
      Instruction.new_with_borsh program_id (.Unfollow follow_target)
        [AccountMeta.new social_pda false]

/-- Builder of `SocialClient::post` (main.rs lines 136-154): derives the post
container pda and the post slot pda — whose final seed is the single byte
`id as u8`, i.e. `id % 256` — and assembles the four-account instruction. -/
def post (hash : List (List Nat) → Pubkey) (onCurve : Pubkey → Bool)
    (program_id user_pubkey : Pubkey) (content : List Nat) (id : Nat) : Option Instruction :=
  (get_social_pda hash onCurve program_id [user_pubkey.bytes, USER_POST_SEED]).bind
    fun social_pda =>
      (get_social_pda hash onCurve program_id
          [user_pubkey.bytes, USER_POST_SEED, [id % 256]]).map
        fun social_post_pda =>
          Instruction.new_with_borsh program_id (.Post content)
            [AccountMeta.new user_pubkey true,
             AccountMeta.new social_pda false,
             AccountMeta.new social_post_pda false,
             AccountMeta.new_readonly system_program_id false]

/-- Builder of `SocialClient::query_post` (main.rs lines 156-172): same two
pdas as `post`, attached as the two accounts. -/
def query_post (hash : List (List Nat) → Pubkey) (onCurve : Pubkey → Bool)
    (program_id user_pubkey : Pubkey) (id : Nat) : Option Instruction :=
  (get_social_pda hash onCurve program_id [user_pubkey.bytes, USER_POST_SEED]).bind
    fun social_pda =>
      (get_social_pda hash onCurve program_id
          [user_pubkey.bytes, USER_POST_SEED, [id % 256]]).map
        fun social_post_pda =>
          Instruction.new_with_borsh program_id .QueryPosts
            [AccountMeta.new social_pda false,
             AccountMeta.new social_post_pda false]

/-- Transaction as assembled by `Transaction::new_signed_with_payer`:
ordered instruction list, fee payer, signer list, recent blockhash (the
freshness token, modelled as a Nat). -/
structure Transaction where
  instructions : List Instruction
  payer : Option Pubkey
  signers : List Pubkey
  recent_blockhash : Nat
deriving DecidableEq, Repr

/-- Constructor `Transaction::new_signed_with_payer`. -/
def Transaction.new_signed_with_payer (instructions : List Instruction)
    (payer : Option Pubkey) (signers : List Pubkey) (recent_blockhash : Nat) : Transaction :=
  { instructions := instructions, payer := payer, signers := signers,
    recent_blockhash := recent_blockhash }

/-- Assembly step of `SocialClient::send_instruction` (main.rs lines 174-184):
the fetched blockhash is passed in, the payer both funds and is the only
signer, and the instruction list is handed over unchanged.  The resulting
transaction is what is submitted to the RPC collaborator. -/
def send_instruction (payer : Pubkey) (instructions : List Instruction)
    (latest_blockhash : Nat) : Transaction :=
  Transaction.new_signed_with_payer instructions (some payer) [payer] latest_blockhash

/-- Full flow of `SocialClient::post`: build the instruction, then hand the
singleton instruction list to `send_instruction` for submission.  There is no
validation step anywhere on this path. -/
def post_flow (hash : List (List Nat) → Pubkey) (onCurve : Pubkey → Bool)
    (program_id user_pubkey : Pubkey) (content : List Nat) (id : Nat)
    (latest_blockhash : Nat) : Option Transaction :=
  (post hash onCurve program_id user_pubkey content id).map
    fun ins => send_instruction user_pubkey [ins] latest_blockhash

/-- Concrete hash stand-in for witnesses: a constant 32-byte value. -/
def wHash : List (List Nat) → Pubkey := fun _ => ⟨List.replicate 32 9⟩

/-- Concrete on-curve test for witnesses: no candidate is on the curve, so
the bump search succeeds at the first try. -/
def wCurve : Pubkey → Bool := fun _ => false

/-- Concrete program id for witnesses. -/
def wPid : Pubkey := ⟨List.replicate 32 1⟩

/-- Concrete caller pubkey for witnesses. -/
def wUser : Pubkey := ⟨List.replicate 32 2⟩

/-- Concrete follow target for witnesses. -/
def wTarget : Pubkey := ⟨List.replicate 32 3⟩

/-- The address every derivation returns under `wHash` and `wCurve`. -/
def wPda : Pubkey := ⟨List.replicate 32 9⟩

/-- Under the witness hash and curve test, every derivation succeeds at the
first bump and returns the constant address. -/
theorem wPda_spec (seeds : List (List Nat)) :
    get_social_pda wHash wCurve wPid seeds = some wPda := rfl

/-- Claim C6: address derivation is deterministic — two calls of
`get_social_pda` with identical program id and identical ordered seed list
return identical addresses. -/
theorem get_social_pda_deterministic (hash : List (List Nat) → Pubkey)
    (onCurve : Pubkey → Bool) (p1 p2 : Pubkey) (s1 s2 : List (List Nat))
    (hp : p1 = p2) (hs : s1 = s2) :
    get_social_pda hash onCurve p1 s1 = get_social_pda hash onCurve p2 s2 := by
  subst hp; subst hs; rfl

/-- Witness for C6 at concrete inputs: the profile seed list of the witness
user, derived twice, gives the same address. -/
theorem get_social_pda_deterministic_witness :
    get_social_pda wHash wCurve wPid [wUser.bytes, USER_PROFILE_SEED] =
      get_social_pda wHash wCurve wPid [wUser.bytes, USER_PROFILE_SEED] :=
  get_social_pda_deterministic wHash wCurve wPid wPid
    [wUser.bytes, USER_PROFILE_SEED] [wUser.bytes, USER_PROFILE_SEED] rfl rfl

/-- Claim C7: the assembled transaction carries the instruction list in the
given order, is funded by exactly the one payer, and signed by exactly that
payer. -/
theorem send_instruction_assembles_transaction (payer : Pubkey)
    (instructions : List Instruction) (latest_blockhash : Nat) :
    (send_instruction payer instructions latest_blockhash).instructions = instructions
    ∧ (send_instruction payer instructions latest_blockhash).payer = some payer
    ∧ (send_instruction payer instructions latest_blockhash).signers = [payer] :=
  ⟨rfl, rfl, rfl⟩

/-- Claim C8: decoding any payload whose leading discriminant is not one of
the six defined variants fails with the unrecognized-operation error, whatever
the remaining bytes are — it never defaults to a variant. -/
theorem decode_unknown_discriminant (d : Nat) (rest : List Nat) (h : 6 ≤ d) :
    decode (d :: rest) = Except.error DecodeError.unrecognizedOperation := by
  have h0 : d ≠ 0 := by omega
  have h1 : d ≠ 1 := by omega
  have h2 : d ≠ 2 := by omega
  have h3 : d ≠ 3 := by omega
  have h4 : d ≠ 4 := by omega
  have h5 : d ≠ 5 := by omega
  simp [decode, h0, h1, h2, h3, h4, h5]

/-- Witness for C8: discriminant 99 with arbitrary trailing bytes decodes to
the unrecognized-operation error. -/
theorem decode_unknown_discriminant_witness :
    6 ≤ 99
    ∧ decode (99 :: [7, 7, 7]) = Except.error DecodeError.unrecognizedOperation :=
  ⟨by decide, decode_unknown_discriminant 99 [7, 7, 7] (by decide)⟩

/-- Claim C9: `UserProfile::new` establishes `data_len == followers.len()`,
and `UserProfile::follow` re-establishes it after each push as long as the
follower count stays below 2^16 (the u16 cast wraps at 65536). -/
theorem user_profile_data_len_invariant :
    UserProfile.new.data_len = UserProfile.new.followers.length
    ∧ ∀ (p : UserProfile) (f : Pubkey), p.followers.length + 1 < 65536 →
        (p.follow f).data_len = (p.follow f).followers.length := by
  refine ⟨rfl, fun p f h => ?_⟩
  simp only [UserProfile.follow, List.length_append, List.length_cons,
    List.length_nil]
  omega

/-- Witness for C9: following once from a fresh profile keeps the length
field equal to the follower-list length. -/
theorem user_profile_data_len_invariant_witness :
    UserProfile.new.followers.length + 1 < 65536
    ∧ (UserProfile.new.follow wTarget).data_len =
        (UserProfile.new.follow wTarget).followers.length :=
  ⟨by decide, user_profile_data_len_invariant.2 UserProfile.new wTarget (by decide)⟩

/-- Claim C2: for every constructible operation value, decoding the encoding
returns exactly the original value. -/
theorem decode_encode_roundtrip (op : SocialInstruction) (h : constructible op) :
    decode (encode op) = Except.ok op := by
  cases op with
  | Init s =>
    simp only [constructible] at h
    simp only [encode, u32le, decode, List.cons_append, List.nil_append, readU32]
    have hv : s.length % 256 + 256 * (s.length / 256 % 256)
        + 65536 * (s.length / 65536 % 256)
        + 16777216 * (s.length / 16777216 % 256) = s.length := by omega
    simp [hv]
  | Follow t =>
    simp only [constructible] at h
    obtain ⟨b⟩ := t
    simp only [Pubkey.bytes] at h
    simp [encode, decode, h]
  | Unfollow t =>
    simp only [constructible] at h
    obtain ⟨b⟩ := t
    simp only [Pubkey.bytes] at h
    simp [encode, decode, h]
  | QueryFollows => rfl
  | Post s =>
    simp only [constructible] at h
    simp only [encode, u32le, decode, List.cons_append, List.nil_append, readU32]
    have hv : s.length % 256 + 256 * (s.length / 256 % 256)
        + 65536 * (s.length / 65536 % 256)
        + 16777216 * (s.length / 16777216 % 256) = s.length := by omega
    simp [hv]
  | QueryPosts => rfl

/-- Witness for C2: a concrete Follow operation round-trips. -/
theorem decode_encode_roundtrip_witness :
    constructible (SocialInstruction.Follow wTarget)
    ∧ decode (encode (SocialInstruction.Follow wTarget)) =
        Except.ok (SocialInstruction.Follow wTarget) :=
  ⟨by simp [constructible, wTarget],
   decode_encode_roundtrip (SocialInstruction.Follow wTarget)
     (by simp [constructible, wTarget])⟩

/-- Claim C1: whenever the needed derivations succeed, every builder attaches
exactly the account list of the per-kind table — Init: authority (writable,
signer), derived address (writable, non-signer), system account (read-only,
non-signer); Follow, Unfollow, QueryFollows: the derived profile address
(writable, non-signer) only; Post: authority, post container, post slot,
system account; QueryPosts: post container and post slot. -/
theorem account_lists_match_table (hash : List (List Nat) → Pubkey)
    (onCurve : Pubkey → Bool) (program_id user follow_target : Pubkey)
    (seed_type content : List Nat) (id : Nat)
    (init_pda profile_pda container_pda slot_pda : Pubkey)
    (hinit : get_social_pda hash onCurve program_id [user.bytes, seed_type] = some init_pda)
    (hprof : get_social_pda hash onCurve program_id [user.bytes, USER_PROFILE_SEED] = some profile_pda)
    (hcont : get_social_pda hash onCurve program_id [user.bytes, USER_POST_SEED] = some container_pda)
    (hslot : get_social_pda hash onCurve program_id [user.bytes, USER_POST_SEED, [id % 256]] = some slot_pda) :
    (init_user hash onCurve program_id user seed_type).map Instruction.accounts =
      some [AccountMeta.new user true, AccountMeta.new init_pda false,
        AccountMeta.new_readonly system_program_id false]
    ∧ (follow_user hash onCurve program_id user follow_target).map Instruction.accounts =
      some [AccountMeta.new profile_pda false]
    ∧ (unfollow_user hash onCurve program_id user follow_target).map Instruction.accounts =
      some [AccountMeta.new profile_pda false]
    ∧ (query_follow hash onCurve program_id user).map Instruction.accounts =
      some [AccountMeta.new profile_pda false]
    ∧ (post hash onCurve program_id user content id).map Instruction.accounts =
      some [AccountMeta.new user true, AccountMeta.new container_pda false,
        AccountMeta.new slot_pda false,
        AccountMeta.new_readonly system_program_id false]
    ∧ (query_post hash onCurve program_id user id).map Instruction.accounts =
      some [AccountMeta.new container_pda false, AccountMeta.new slot_pda false] := by
  refine ⟨?_, ?_, ?_, ?_, ?_, ?_⟩ <;>
    simp [init_user, follow_user, unfollow_user, query_follow, post, query_post,
      Instruction.new_with_borsh, hinit, hprof, hcont, hslot]

/-- Witness for C1: the concrete witness derivations succeed and the six
account lists come out exactly as tabulated. -/
theorem account_lists_match_table_witness :
    (init_user wHash wCurve wPid wUser USER_PROFILE_SEED).map Instruction.accounts =
      some [AccountMeta.new wUser true, AccountMeta.new wPda false,
        AccountMeta.new_readonly system_program_id false]
    ∧ (follow_user wHash wCurve wPid wUser wTarget).map Instruction.accounts =
      some [AccountMeta.new wPda false]
    ∧ (unfollow_user wHash wCurve wPid wUser wTarget).map Instruction.accounts =
      some [AccountMeta.new wPda false]
    ∧ (query_follow wHash wCurve wPid wUser).map Instruction.accounts =
      some [AccountMeta.new wPda false]
    ∧ (post wHash wCurve wPid wUser [104, 105] 5).map Instruction.accounts =
      some [AccountMeta.new wUser true, AccountMeta.new wPda false,
        AccountMeta.new wPda false,
        AccountMeta.new_readonly system_program_id false]
    ∧ (query_post wHash wCurve wPid wUser 5).map Instruction.accounts =
      some [AccountMeta.new wPda false, AccountMeta.new wPda false] :=
  account_lists_match_table wHash wCurve wPid wUser wTarget USER_PROFILE_SEED
    [104, 105] 5 wPda wPda wPda wPda (wPda_spec _) (wPda_spec _) (wPda_spec _)
    (wPda_spec _)

/-- Claim C3: building a Follow operation encodes the payload as the 1-byte
Follow discriminant followed by the raw 32 target bytes, and attaches exactly
one account — the profile address derived from the caller pubkey and the
"profile" seed, writable and non-signer. -/
theorem follow_user_wire_format (hash : List (List Nat) → Pubkey)
    (onCurve : Pubkey → Bool) (program_id user follow_target profile_pda : Pubkey)
    (hprof : get_social_pda hash onCurve program_id
      [user.bytes, USER_PROFILE_SEED] = some profile_pda) :
    follow_user hash onCurve program_id user follow_target =
      some { program_id := program_id,
             accounts := [{ pubkey := profile_pda, is_signer := false,
                            is_writable := true }],
             data := 1 :: follow_target.bytes } := by
  simp [follow_user, Instruction.new_with_borsh, AccountMeta.new, hprof, encode]

/-- Witness for C3 at concrete inputs. -/
theorem follow_user_wire_format_witness :
    follow_user wHash wCurve wPid wUser wTarget =
      some { program_id := wPid,
             accounts := [{ pubkey := wPda, is_signer := false,
                            is_writable := true }],
             data := 1 :: wTarget.bytes } :=
  follow_user_wire_format wHash wCurve wPid wUser wTarget wPda (wPda_spec _)

/-- Claim C4: the post-slot address uses as final seed only the single byte
`id % 256`: `post` and `query_post` behave identically on any two ids that
are congruent modulo 256, and id 255 is not rejected — whenever the two
derivations succeed, `post` at id 255 assembles the instruction whose slot
account is derived with final seed byte 255. -/
theorem post_slot_index_wraps (hash : List (List Nat) → Pubkey)
    (onCurve : Pubkey → Bool) (program_id user : Pubkey) (content : List Nat)
    (id1 id2 : Nat) (container_pda slot255_pda : Pubkey)
    (hmod : id1 % 256 = id2 % 256)
    (hcont : get_social_pda hash onCurve program_id
      [user.bytes, USER_POST_SEED] = some container_pda)
    (hslot : get_social_pda hash onCurve program_id
      [user.bytes, USER_POST_SEED, [255]] = some slot255_pda) :
    post hash onCurve program_id user content id1 =
      post hash onCurve program_id user content id2
    ∧ query_post hash onCurve program_id user id1 =
      query_post hash onCurve program_id user id2
    ∧ post hash onCurve program_id user content 255 =
      some (Instruction.new_with_borsh program_id (.Post content)
        [AccountMeta.new user true, AccountMeta.new container_pda false,
         AccountMeta.new slot255_pda false,
         AccountMeta.new_readonly system_program_id false]) := by
  refine ⟨by rw [post, post, hmod], by rw [query_post, query_post, hmod], ?_⟩
  simp [post, hcont]
  exact ⟨slot255_pda, by simpa using hslot, rfl⟩

/-- Witness for C4: ids 0 and 256 are congruent modulo 256 and produce the
same instruction, and id 255 succeeds. -/
theorem post_slot_index_wraps_witness :
    (0 : Nat) % 256 = 256 % 256
    ∧ post wHash wCurve wPid wUser [104] 0 = post wHash wCurve wPid wUser [104] 256
    ∧ query_post wHash wCurve wPid wUser 0 = query_post wHash wCurve wPid wUser 256
    ∧ post wHash wCurve wPid wUser [104] 255 =
      some (Instruction.new_with_borsh wPid (.Post [104])
        [AccountMeta.new wUser true, AccountMeta.new wPda false,
         AccountMeta.new wPda false,
         AccountMeta.new_readonly system_program_id false]) :=
  ⟨by decide,
   (post_slot_index_wraps wHash wCurve wPid wUser [104] 0 256 wPda wPda
     (by decide) (wPda_spec _) (wPda_spec _)).1,
   (post_slot_index_wraps wHash wCurve wPid wUser [104] 0 256 wPda wPda
     (by decide) (wPda_spec _) (wPda_spec _)).2.1,
   (post_slot_index_wraps wHash wCurve wPid wUser [104] 0 256 wPda wPda
     (by decide) (wPda_spec _) (wPda_spec _)).2.2⟩

/-- Claim C10: follow, unfollow and query-follow all reference the one
profile address derived from the caller pubkey and the "profile" seed,
independent of the target argument, and it is the same address init derives
when called with seed type "profile". -/
theorem profile_address_shared (hash : List (List Nat) → Pubkey)
    (onCurve : Pubkey → Bool) (program_id user t1 t2 profile_pda : Pubkey)
    (hprof : get_social_pda hash onCurve program_id
      [user.bytes, USER_PROFILE_SEED] = some profile_pda) :
    follow_user hash onCurve program_id user t1 =
      some (Instruction.new_with_borsh program_id (.Follow t1)
        [AccountMeta.new profile_pda false])
    ∧ unfollow_user hash onCurve program_id user t2 =
      some (Instruction.new_with_borsh program_id (.Unfollow t2)
        [AccountMeta.new profile_pda false])
    ∧ query_follow hash onCurve program_id user =
      some (Instruction.new_with_borsh program_id .QueryFollows
        [AccountMeta.new profile_pda false])
    ∧ init_user hash onCurve program_id user USER_PROFILE_SEED =
      some (Instruction.new_with_borsh program_id (.Init USER_PROFILE_SEED)
        [AccountMeta.new user true, AccountMeta.new profile_pda false,
         AccountMeta.new_readonly system_program_id false]) := by
  refine ⟨?_, ?_, ?_, ?_⟩ <;>
    simp [follow_user, unfollow_user, query_follow, init_user, hprof]

/-- Witness for C10 at concrete inputs, with two different targets. -/
theorem profile_address_shared_witness :
    follow_user wHash wCurve wPid wUser wTarget =
      some (Instruction.new_with_borsh wPid (.Follow wTarget)
        [AccountMeta.new wPda false])
    ∧ unfollow_user wHash wCurve wPid wUser wUser =
      some (Instruction.new_with_borsh wPid (.Unfollow wUser)
        [AccountMeta.new wPda false])
    ∧ query_follow wHash wCurve wPid wUser =
      some (Instruction.new_with_borsh wPid .QueryFollows
        [AccountMeta.new wPda false])
    ∧ init_user wHash wCurve wPid wUser USER_PROFILE_SEED =
      some (Instruction.new_with_borsh wPid (.Init USER_PROFILE_SEED)
        [AccountMeta.new wUser true, AccountMeta.new wPda false,
         AccountMeta.new_readonly system_program_id false]) :=
  profile_address_shared wHash wCurve wPid wUser wTarget wUser wPda (wPda_spec _)

/-- Counterexample to claim C5 as stated: posting an empty content string is
NOT rejected — at concrete inputs the builder succeeds and the full flow
assembles and submits a transaction whose single instruction carries the
Borsh encoding of the empty string (discriminant 4 followed by a zero u32
length), so an instruction is sent. -/
theorem post_empty_content_not_rejected :
    post_flow wHash wCurve wPid wUser [] 0 7 =
      some { instructions :=
               [{ program_id := wPid,
                  accounts := [AccountMeta.new wUser true,
                    AccountMeta.new wPda false, AccountMeta.new wPda false,
                    AccountMeta.new_readonly system_program_id false],
                  data := [4, 0, 0, 0, 0] }],
             payer := some wUser, signers := [wUser],
             recent_blockhash := 7 } := rfl

/-- Claim C5 as amended: the client performs no validation — invoking Post
with an empty content string never raises an error; whenever the two
derivations succeed the payload is encoded as discriminant 4 followed by a
zero length prefix, and the instruction is assembled into a transaction and
submitted like any other post. -/
theorem post_empty_content_submitted (hash : List (List Nat) → Pubkey)
    (onCurve : Pubkey → Bool) (program_id user : Pubkey) (id latest_blockhash : Nat)
    (container_pda slot_pda : Pubkey)
    (hcont : get_social_pda hash onCurve program_id
      [user.bytes, USER_POST_SEED] = some container_pda)
    (hslot : get_social_pda hash onCurve program_id
      [user.bytes, USER_POST_SEED, [id % 256]] = some slot_pda) :
    post_flow hash onCurve program_id user [] id latest_blockhash =
      some { instructions :=
               [{ program_id := program_id,
                  accounts := [AccountMeta.new user true,
                    AccountMeta.new container_pda false,
                    AccountMeta.new slot_pda false,
                    AccountMeta.new_readonly system_program_id false],
                  data := [4, 0, 0, 0, 0] }],
             payer := some user, signers := [user],
             recent_blockhash := latest_blockhash } := by
  simp [post_flow, post, send_instruction, Transaction.new_signed_with_payer,
    Instruction.new_with_borsh, encode, u32le, hcont, hslot]

/-- Witness for the amended C5 at concrete inputs. -/
theorem post_empty_content_submitted_witness :
    post_flow wHash wCurve wPid wUser [] 3 11 =
      some { instructions :=
               [{ program_id := wPid,
                  accounts := [AccountMeta.new wUser true,
                    AccountMeta.new wPda false, AccountMeta.new wPda false,
                    AccountMeta.new_readonly system_program_id false],
                  data := [4, 0, 0, 0, 0] }],
             payer := some wUser, signers := [wUser],
             recent_blockhash := 11 } :=
  post_empty_content_submitted wHash wCurve wPid wUser 3 11 wPda wPda
    (wPda_spec _) (wPda_spec _)

end Social
